import Mathlib

/-!
Verification of the RAG chatbot's tool-orchestration core.

The orchestrator (`generate_response`, `handle_tool_execution`, `toolLoop`)
is a shallow embedding of `backend/ai_generator.py`.  The tool registry,
the search tool and the facade are not part of the sources; they are
modelled from the specification (sections 4.1, 4.2 and 4.5).

The model endpoint is represented by a script: a list of model responses
consumed one per API call.  Every orchestration function returns, besides
its value, the list of API calls it issued (each with its message list,
system prompt and optional tool list), so that resource bounds and
message-shape invariants can be stated about the calls actually made.  A
text result of `none` models a Python exception (missing attribute or
dictionary key, or an endpoint failure).
-/

namespace Rag

/-- Keyword arguments of a tool call: `search_course_content` takes a
required query plus optional course-name and lesson-number filters. -/
structure ToolInput where
  query : String
  course_name : Option String
  lesson_number : Option Int
deriving Repr, DecidableEq

/-- A citation record produced by a tool: display text plus optional link. -/
structure Source where
  text : String
  link : Option String
deriving Repr, DecidableEq

/-- Metadata attached to one search match: owning course title and, when
present, the lesson number. -/
structure Metadata where
  course_title : String
  lesson_number : Option Int
deriving Repr, DecidableEq

/-- Result of a vector-store search: parallel lists of documents, metadata,
distances and resolved links, or an error string (mirrors
`vector_store.SearchResults` as used by the tests). -/
structure SearchResults where
  documents : List String
  metadata : List Metadata
  distances : List Rat
  links : List (Option String)
  error : Option String
deriving Repr, DecidableEq

/-- Machine-readable schema of one tool, as placed in the model call's tool
list: name, description, parameter properties and required parameters. -/
structure ToolDef where
  name : String
  description : String
  properties : List (String × String)
  required : List String
deriving Repr, DecidableEq

/-- Modelled from the spec: a registered tool (section 4.1) exposes a
definition, an execute contract returning the formatted string together
with the sources of that call, and the mutable `last_sources` recording the
sources of its most recent invocation. -/
structure Tool where
  definition : ToolDef
  run : ToolInput → String × List Source
  last_sources : List Source

/-- Declared unique name of a tool. -/
def Tool.name (t : Tool) : String :=
  t.definition.name

/-- Modelled from the spec: the Tool Registry (`ToolManager` in the tests)
holds named tools in registration order. -/
structure ToolManager where
  tools : List Tool

/-- Modelled from the spec: `register(tool)` adds a tool keyed by its
declared name. -/
def ToolManager.register_tool (mgr : ToolManager) (t : Tool) : ToolManager :=
  ⟨mgr.tools ++ [t]⟩

/-- Modelled from the spec: the tool definitions in stable (registration)
order, used verbatim as the model's tool list. -/
def ToolManager.get_tool_definitions (mgr : ToolManager) : List ToolDef :=
  mgr.tools.map Tool.definition

/-- Modelled from the spec: name lookup in the registry; with colliding
names the last registration wins. -/
def ToolManager.findTool (mgr : ToolManager) (name : String) : Option Tool :=
  mgr.tools.reverse.find? fun t => t.name == name

/-- Modelled from the spec: `execute(name, kwargs)` looks the tool up by
name; if absent it returns the error-shaped string rather than raising;
otherwise it runs the tool and stores that call's sources as the tool's
`last_sources`. -/
def ToolManager.execute_tool (mgr : ToolManager) (name : String) (input : ToolInput) :
    String × ToolManager :=
  match mgr.findTool name with
  | none => ("Tool \x27" ++ name ++ "\x27 not found", mgr)
  | some t =>
    let r := t.run input
    (r.1, ⟨mgr.tools.map fun u => if u.name == name then ⟨u.definition, u.run, r.2⟩ else u⟩)

/-- Modelled from the spec: `drain_sources` collects `last_sources` from
every registered tool in registration order and resets each tool's stored
sources to empty. -/
def ToolManager.drain_sources (mgr : ToolManager) : List Source × ToolManager :=
  ((mgr.tools.map Tool.last_sources).flatten,
   ⟨mgr.tools.map fun t => ⟨t.definition, t.run, []⟩⟩)

/-- Modelled from the spec: header line of one formatted match, omitting
the lesson segment when no lesson number is present. -/
def formatHeader (m : Metadata) : String :=
  match m.lesson_number with
  | some n => "[" ++ m.course_title ++ " - Lesson " ++ toString n ++ "]"
  | none => "[" ++ m.course_title ++ "]"

/-- Modelled from the spec: display text of the Source for one match,
omitting the lesson segment when no lesson number is present. -/
def sourceTextOf (m : Metadata) : String :=
  match m.lesson_number with
  | some n => m.course_title ++ " - Lesson " ++ toString n
  | none => m.course_title

/-- Modelled from the spec: each match formatted as its header line
followed by the snippet text, all matches joined with a blank line. -/
def formatResults (r : SearchResults) : String :=
  String.intercalate "\n\n"
    ((r.documents.zip r.metadata).map fun p => formatHeader p.2 ++ "\n" ++ p.1)

/-- Modelled from the spec: one Source per match, in match order, pairing
the rendered text with the match's resolved link. -/
def sourcesOf (r : SearchResults) : List Source :=
  (r.metadata.zip r.links).map fun p => ⟨sourceTextOf p.1, p.2⟩

/-- Modelled from the spec: the descriptive message for a search with zero
matches, naming the course filter and, when given, the lesson filter. -/
def emptyMessage (course_name : Option String) (lesson_number : Option Int) : String :=
  "No relevant content found" ++
    (match course_name with
     | some c => " in course \x27" ++ c ++ "\x27"
     | none => "") ++
    (match lesson_number with
     | some n => " in lesson " ++ toString n
     | none => "")

/-- Modelled from the spec: the Search Tool's execute (section 4.2).  It
delegates to the vector store; a store error is returned verbatim with no
sources; zero matches yield the descriptive message with no sources;
otherwise the formatted matches and one Source per match. -/
def courseSearchRun (store : String → Option String → Option Int → SearchResults)
    (inp : ToolInput) : String × List Source :=
  let results := store inp.query inp.course_name inp.lesson_number
  match results.error with
  | some e => (e, [])
  | none =>
    if results.documents.isEmpty then
      (emptyMessage inp.course_name inp.lesson_number, [])
    else
      (formatResults results, sourcesOf results)

/-- Tool definition of the search tool as exposed to the model. -/
def searchToolDef : ToolDef :=
  ⟨"search_course_content",
   "Search course materials with smart course name matching and lesson filtering",
   [("query", "string"), ("course_name", "string"), ("lesson_number", "integer")],
   ["query"]⟩

/-- Modelled from the spec: the search tool over a given vector store, with
initially empty `last_sources`. -/
def CourseSearchTool (store : String → Option String → Option Int → SearchResults) : Tool :=
  ⟨searchToolDef, courseSearchRun store, []⟩

/-- One content block of a model response: free text, or a tool-use request
carrying a call id, a tool name and a parameter map. -/
inductive ContentBlock where
  | text (t : String)
  | tool_use (id name : String) (input : ToolInput)
deriving Repr, DecidableEq

/-- A model response: its stop reason and its ordered content blocks. -/
structure ModelResponse where
  stop_reason : String
  content : List ContentBlock
deriving Repr, DecidableEq

/-- One tool-result entry of the combined user turn
(`ai_generator.py` lines 175-179). -/
structure ToolResult where
  type : String
  tool_use_id : String
  content : String
deriving Repr, DecidableEq

/-- Content of one message of the running message list: the plain user
query, an assistant response's blocks, or a round's tool results. -/
inductive MessageContent where
  | ofString (s : String)
  | ofBlocks (bs : List ContentBlock)
  | ofResults (rs : List ToolResult)
deriving Repr, DecidableEq

/-- One message of the running message list. -/
structure Message where
  role : String
  content : MessageContent
deriving Repr, DecidableEq

/-- Parameters of one model call as recorded in the trace: the message
list, the system prompt, the tool list when the `tools` key is present, and
whether automatic tool choice was set. -/
structure ApiCall where
  messages : List Message
  system : String
  tools : Option (List ToolDef)
  tool_choice_auto : Bool
deriving Repr, DecidableEq

/-- Maximum number of sequential tool-calling rounds
(`AIGenerator.MAX_TOOL_ROUNDS`). -/
def MAX_TOOL_ROUNDS : Nat := 2

/-- Static system prompt (`AIGenerator.SYSTEM_PROMPT`). -/
def SYSTEM_PROMPT : String :=
" You are an AI assistant specialized in course materials and educational content with access to tools for searching course content and retrieving course outlines.

Available Tools:
1. **Course Outline Tool** (get_course_outline) - Retrieve complete course structure
   - **ALWAYS use this tool** for queries asking for: outlines, course structure, lesson list, table of contents, or \"what lessons\"
   - Returns: course title, course link, and complete lesson list with numbers and titles
   - This is the PREFERRED tool for any structural/organizational queries about a course
   - Present the information directly without meta-commentary

2. **Content Search Tool** (search_course_content) - Search within course materials for specific information
   - Use **only** for questions about specific course content or detailed educational materials within lessons
   - Synthesize search results into accurate, fact-based responses
   - If search yields no results, state this clearly without offering alternatives

Multi-Step Tool Usage:
- You can make **up to 2 sequential tool calls** to gather comprehensive information
- Use the first tool call to gather initial information
- If needed, use a second tool call to gather complementary or comparative information
- After the second tool call, you must provide your final answer
- Examples of multi-step queries:
  * \"Compare lesson 1 and lesson 3\" → Search lesson 1, then search lesson 3
  * \"Get outline then explain lesson 2\" → Get outline, then search lesson 2 content
  * \"What\x27s in lesson 4 of the course about Neural Networks\" → Get outline to find course, then search lesson 4

Efficiency Guidelines:
- **One tool per query** is preferred when sufficient
- Use two calls only when genuinely necessary for comparison or complementary information
- Do not use multiple tools for information that could be gathered in one call
- Example: \"What\x27s in lesson 1?\" → ONE search call, not outline + search

Tool Selection Rules:
- **\"Show me the outline\"** → Use get_course_outline tool
- **\"What lessons are in the course\"** → Use get_course_outline tool
- **\"List all lessons\"** → Use get_course_outline tool
- **\"What topics does the course cover\"** → Use get_course_outline tool
- **\"Explain [concept] from lesson X\"** → Use search_course_content tool
- **\"What does the course teach about [topic]\"** → Use search_course_content tool

Response Protocol:
- **General knowledge questions**: Answer using existing knowledge without using tools
- **Course outline/structure questions**: ALWAYS use get_course_outline tool first
- **Course-specific content questions**: Use search_course_content tool first, then answer
- **No meta-commentary**:
 - Provide direct answers only — no reasoning process, tool usage explanations, or question-type analysis
 - Do not mention \"based on the search results\" or \"using the tool\"


All responses must be:
1. **Brief, Concise and focused** - Get to the point quickly
2. **Educational** - Maintain instructional value
3. **Clear** - Use accessible language
4. **Example-supported** - Include relevant examples when they aid understanding
Provide only the direct answer to what was asked.
"

/-- System content of one query (`generate_response` lines 95-99): the
static prompt, extended with the labelled transcript when the history is
truthy (present and non-empty). -/
def buildSystem (conversation_history : Option String) : String :=
  match conversation_history with
  | some h =>
    if h = "" then SYSTEM_PROMPT
    else SYSTEM_PROMPT ++ "\n\nPrevious conversation:\n" ++ h
  | none => SYSTEM_PROMPT

/-- Text of the first content block (`response.content[0].text`): `none`
models the Python exception when the block list is empty or its head is a
tool-use block. -/
def extractFirstText (r : ModelResponse) : Option String :=
  match r.content with
  | ContentBlock.text t :: _ => some t
  | _ => none

/-- Python truthiness of the `tools` argument (line 109): the `tools` key
is added only when the argument is present and non-empty. -/
def truthyTools (tools : Option (List ToolDef)) : Option (List ToolDef) :=
  match tools with
  | some ts => if ts.isEmpty then none else some ts
  | none => none

/-- Tool execution of one round (`_handle_tool_execution` lines 166-179):
every tool-use block of the response is executed through the registry in
request order, threading the registry state, and yields one tool-result
entry keyed to the call's id; text blocks yield no entry. -/
def runToolBlocks : ToolManager → List ContentBlock → List ToolResult × ToolManager
  | mgr, [] => ([], mgr)
  | mgr, ContentBlock.text _ :: rest => runToolBlocks mgr rest
  | mgr, ContentBlock.tool_use id name input :: rest =>
    let r := mgr.execute_tool name input
    let out := runToolBlocks r.2 rest
    (⟨"tool_result", id, r.1⟩ :: out.1, out.2)

/-- Parameters of the follow-up call issued after a round
(`_handle_tool_execution` lines 187-199): the tool list (with automatic
tool choice) is included exactly when the current round number is strictly
below the maximum; `none` models the `KeyError` raised when the tools key
is absent from the base parameters but required. -/
def nextCallParams (system : String) (toolsOpt : Option (List ToolDef))
    (messages : List Message) (round_num maxRounds : Nat) : Option ApiCall :=
  if round_num < maxRounds then
    match toolsOpt with
    | some ts => some ⟨messages, system, some ts, true⟩
    | none => none
  else
    some ⟨messages, system, none, false⟩

/-- Round loop of `_handle_tool_execution` (lines 155-206), with the
remaining iteration count as explicit fuel (`fuel = maxRounds - round_num
+ 1` at entry).  When the fuel is exhausted, or the current response no
longer wants a tool, the loop returns the first text block of the current
response.  Otherwise the response is appended as an assistant turn, its
tool-use blocks are executed, the round's results are appended as one
combined user turn when non-empty, and the next scripted response is
consumed with the next call's parameters recorded. -/
def toolLoop (maxRounds : Nat) (system : String) (toolsOpt : Option (List ToolDef)) :
    List ModelResponse → ToolManager → List Message → ModelResponse → Nat → Nat →
    Option String × List ApiCall × ToolManager
  | _script, mgr, _messages, current, _round_num, 0 => (extractFirstText current, [], mgr)
  | script, mgr, messages, current, round_num, fuel + 1 =>
    if current.stop_reason = "tool_use" then
      let messages1 := messages ++ [⟨"assistant", MessageContent.ofBlocks current.content⟩]
      let rr := runToolBlocks mgr current.content
      let messages2 :=
        if rr.1.isEmpty then messages1
        else messages1 ++ [⟨"user", MessageContent.ofResults rr.1⟩]
      match nextCallParams system toolsOpt messages2 round_num maxRounds with
      | none => (none, [], rr.2)
      | some call =>
        match script with
        | [] => (none, [call], rr.2)
        | r :: rest =>
          let out := toolLoop maxRounds system toolsOpt rest rr.2 messages2 r (round_num + 1) fuel
          (out.1, call :: out.2.1, out.2.2)
    else
      (extractFirstText current, [], mgr)

/-- Entry into the round loop (`_handle_tool_execution`): starts from the
base call's message list at round 1 with `MAX_TOOL_ROUNDS` rounds
available. -/
def handle_tool_execution (script : List ModelResponse) (initial_response : ModelResponse)
    (base_params : ApiCall) (mgr : ToolManager) :
    Option String × List ApiCall × ToolManager :=
  toolLoop MAX_TOOL_ROUNDS base_params.system base_params.tools script mgr
    base_params.messages initial_response 1 MAX_TOOL_ROUNDS

/-- Embedding of `AIGenerator.generate_response` (lines 77-131) against a
scripted endpoint.  Returns the final text (`none` on an exception path),
the trace of API calls issued, and the resulting tool manager. -/
def generate_response (script : List ModelResponse) (query : String)
    (conversation_history : Option String) (tools : Option (List ToolDef))
    (tool_manager : Option ToolManager) :
    Option String × List ApiCall × Option ToolManager :=
  let system_content := buildSystem conversation_history
  let toolsIncluded := truthyTools tools
  let api_params : ApiCall :=
    ⟨[⟨"user", MessageContent.ofString query⟩], system_content, toolsIncluded,
     toolsIncluded.isSome⟩
  match script with
  | [] => (none, [api_params], tool_manager)
  | r :: rest =>
    match tool_manager with
    | some mgr =>
      if r.stop_reason = "tool_use" then
        let out := handle_tool_execution rest r api_params mgr
        (out.1, api_params :: out.2.1, some out.2.2)
      else
        (extractFirstText r, [api_params], some mgr)
    | none => (extractFirstText r, [api_params], none)

/-- Modelled from the spec: the RAG facade's query (section 4.5) — invoke
the orchestrator with the registry's full tool list, then drain the
accumulated sources exactly once.  Returns the answer, the drained
sources, the resulting registry and the call trace. -/
def ragQuery (script : List ModelResponse) (mgr : ToolManager) (queryText : String)
    (history : Option String) :
    Option String × List Source × ToolManager × List ApiCall :=
  let out := generate_response script queryText history
    (some mgr.get_tool_definitions) (some mgr)
  let mgr1 := out.2.2.getD mgr
  let drained := mgr1.drain_sources
  (out.1, drained.1, drained.2, out.2.1)

/-- Role pattern of a message list after `k` completed tool rounds: user,
then `k` repetitions of assistant followed by user. -/
def altRoles : Nat → List String
  | 0 => ["user"]
  | k + 1 => altRoles k ++ ["assistant", "user"]

/-- Whether a content block is a tool-use request. -/
def ContentBlock.isToolUse : ContentBlock → Bool
  | ContentBlock.tool_use _ _ _ => true
  | _ => false

/-- Whether a block list contains at least one tool-use request. -/
def hasToolUse (bs : List ContentBlock) : Bool :=
  bs.any ContentBlock.isToolUse

/-- The tool-use requests of a response's blocks, in request order, as
(call id, tool name, input) triples. -/
def toolUses : List ContentBlock → List (String × String × ToolInput)
  | [] => []
  | ContentBlock.text _ :: rest => toolUses rest
  | ContentBlock.tool_use id name input :: rest => (id, name, input) :: toolUses rest

/-- Sequential execution of a list of tool requests through the registry,
producing one tool-result entry per request in order. -/
def execSeq : ToolManager → List (String × String × ToolInput) → List ToolResult × ToolManager
  | mgr, [] => ([], mgr)
  | mgr, (id, name, input) :: rest =>
    let r := mgr.execute_tool name input
    let out := execSeq r.2 rest
    (⟨"tool_result", id, r.1⟩ :: out.1, out.2)

/-- Sample store reporting a fixed error, for concrete witnesses. -/
def errStore : String → Option String → Option Int → SearchResults :=
  fun _ _ _ => ⟨[], [], [], [], some "No course found matching \x27NonexistentCourse\x27"⟩

/-- Sample store returning zero matches, for concrete witnesses. -/
def emptyStore : String → Option String → Option Int → SearchResults :=
  fun _ _ _ => ⟨[], [], [], [], none⟩

/-- Sample store returning two matches, for concrete witnesses. -/
def hitStore : String → Option String → Option Int → SearchResults :=
  fun _ _ _ =>
    ⟨["Content about Python basics", "More Python content"],
     [⟨"Python 101", some 1⟩, ⟨"Python 101", some 2⟩],
     [1 / 10, 2 / 10],
     [some "http://example.com/lesson1", some "http://example.com/lesson2"],
     none⟩

/-- Sample registry holding only the search tool over `emptyStore`. -/
def sampleMgr : ToolManager :=
  ⟨[CourseSearchTool emptyStore]⟩

/-- Sample registry with no registered tools. -/
def emptyMgr : ToolManager :=
  ⟨[]⟩

/-- Sample scripted tool-use response requesting one search. -/
def sampleToolUseResponse : ModelResponse :=
  ⟨"tool_use", [ContentBlock.tool_use "tool_1" "search_course_content" ⟨"q1", none, none⟩]⟩

/-- Sample scripted final response. -/
def sampleFinalResponse : ModelResponse :=
  ⟨"end_turn", [ContentBlock.text "Final answer"]⟩

/-! ### Helper lemmas -/

theorem altRoles_length (k : Nat) : (altRoles k).length = 2 * k + 1 := by
  induction k with
  | zero => rfl
  | succ n ih =>
    simp only [altRoles, List.length_append, ih, List.length_cons, List.length_nil]
    omega

theorem altRoles_ne_nil (k : Nat) : altRoles k ≠ [] := by
  cases k with
  | zero => simp [altRoles]
  | succ n => simp [altRoles]

theorem runToolBlocks_ne_nil (bs : List ContentBlock) :
    ∀ mgr : ToolManager, hasToolUse bs = true → (runToolBlocks mgr bs).1 ≠ [] := by
  induction bs with
  | nil => intro mgr h; simp [hasToolUse] at h
  | cons b rest ih =>
    intro mgr h
    cases b with
    | text t =>
      simp only [runToolBlocks]
      exact ih mgr (by simpa [hasToolUse, ContentBlock.isToolUse] using h)
    | tool_use id name input =>
      simp [runToolBlocks]

theorem runToolBlocks_isEmpty_false (bs : List ContentBlock) (mgr : ToolManager)
    (h : hasToolUse bs = true) : (runToolBlocks mgr bs).1.isEmpty = false := by
  have := runToolBlocks_ne_nil bs mgr h
  cases hrb : (runToolBlocks mgr bs).1 with
  | nil => exact absurd hrb this
  | cons a t => rfl

theorem zip_ofFn {α β : Type} (n : Nat) (f : Fin n → α) (g : Fin n → β) :
    (List.ofFn f).zip (List.ofFn g) = List.ofFn fun i => (f i, g i) := by
  induction n with
  | zero => simp
  | succ m ih => simp [List.ofFn_succ, ih]

theorem flatten_map_nil {α β : Type} (l : List α) :
    (l.map fun _ => ([] : List β)).flatten = [] := by
  induction l with
  | nil => rfl
  | cons a t ih => simp [ih]

theorem nextCallParams_messages (sys : String) (tOpt : Option (List ToolDef))
    (msgs : List Message) (rn mx : Nat) (c : ApiCall)
    (h : nextCallParams sys tOpt msgs rn mx = some c) : c.messages = msgs := by
  unfold nextCallParams at h
  split at h
  · cases tOpt with
    | none => exact absurd h (by simp)
    | some ts =>
      have h2 := Option.some.inj h
      rw [← h2]
  · have h2 := Option.some.inj h
    rw [← h2]

theorem toolLoop_calls_le (maxR : Nat) (sys : String) (tOpt : Option (List ToolDef)) :
    ∀ (fuel : Nat) (script : List ModelResponse) (mgr : ToolManager)
      (msgs : List Message) (cur : ModelResponse) (k : Nat),
      (toolLoop maxR sys tOpt script mgr msgs cur k fuel).2.1.length ≤ fuel := by
  intro fuel
  induction fuel with
  | zero => intro script mgr msgs cur k; simp [toolLoop]
  | succ n ih =>
    intro script mgr msgs cur k
    simp only [toolLoop]
    split
    · split
      · simp
      · split
        · simp
        · simpa using Nat.succ_le_succ (ih _ _ _ _ _)
    · simp

theorem toolLoop_invariant (maxR : Nat) (sys : String) (tOpt : Option (List ToolDef))
    (q : String) :
    ∀ (fuel : Nat) (script : List ModelResponse) (mgr : ToolManager)
      (msgs : List Message) (cur : ModelResponse) (rn k : Nat),
      (∀ r ∈ cur :: script, r.stop_reason = "tool_use" → hasToolUse r.content = true) →
      msgs.map Message.role = altRoles k →
      msgs.head? = some ⟨"user", MessageContent.ofString q⟩ →
      ∀ c ∈ (toolLoop maxR sys tOpt script mgr msgs cur rn fuel).2.1,
        ∃ j, c.messages.map Message.role = altRoles j ∧
          c.messages.head? = some ⟨"user", MessageContent.ofString q⟩ := by
  intro fuel
  induction fuel with
  | zero =>
    intro script mgr msgs cur rn k _ _ _ c hc
    simp [toolLoop] at hc
  | succ n ih =>
    intro script mgr msgs cur rn k hall hroles hhead c hc
    by_cases hstop : cur.stop_reason = "tool_use"
    case neg =>
      simp [toolLoop, hstop] at hc
    case pos =>
      have htu : hasToolUse cur.content = true :=
        hall cur (List.mem_cons_self _ _) hstop
      have hne : (runToolBlocks mgr cur.content).1.isEmpty = false :=
        runToolBlocks_isEmpty_false _ _ htu
      have hmsgsne : msgs ≠ [] := by
        intro hnil
        rw [hnil] at hroles
        exact altRoles_ne_nil k hroles.symm
      have hroles2 :
          (msgs ++ [(⟨"assistant", MessageContent.ofBlocks cur.content⟩ : Message),
            (⟨"user", MessageContent.ofResults (runToolBlocks mgr cur.content).1⟩ : Message)]).map
              Message.role = altRoles (k + 1) := by
        simp [hroles, altRoles]
      have hhead2 :
          (msgs ++ [(⟨"assistant", MessageContent.ofBlocks cur.content⟩ : Message),
            (⟨"user", MessageContent.ofResults (runToolBlocks mgr cur.content).1⟩ : Message)]).head? =
            some ⟨"user", MessageContent.ofString q⟩ := by
        rw [List.head?_append_of_ne_nil _ hmsgsne]
        exact hhead
      simp only [toolLoop, hstop, if_pos, hne, Bool.false_eq_true, if_false] at hc
      split at hc
      · simp at hc
      case h_2 call heq =>
        have hcm := nextCallParams_messages _ _ _ _ _ _ heq
        split at hc
        · simp at hc
          subst hc
          exact ⟨k + 1, by rw [hcm]; simpa using hroles2, by rw [hcm]; simpa using hhead2⟩
        case h_2 r rest =>
          have hall2 : ∀ r2 ∈ r :: rest,
              r2.stop_reason = "tool_use" → hasToolUse r2.content = true := by
            intro r2 hr2 hs2
            rcases List.mem_cons.mp hr2 with h | h
            · exact hall r2 (by
                rw [h]; exact List.mem_cons_of_mem _ (List.mem_cons_self _ _)) hs2
            · exact hall r2 (List.mem_cons_of_mem _ (List.mem_cons_of_mem _ h)) hs2
          simp at hc
          rcases hc with hc | hc
          · subst hc
            exact ⟨k + 1, by rw [hcm]; simpa using hroles2, by rw [hcm]; simpa using hhead2⟩
          · exact ih rest _ _ r (rn + 1) (k + 1) hall2 hroles2 hhead2 c hc

theorem drain_cleared (mgr : ToolManager) :
    ((mgr.drain_sources).2.drain_sources).1 = [] := by
  simp only [ToolManager.drain_sources, List.map_map]
  exact flatten_map_nil mgr.tools

/-! ### Claims -/

/-- C3: for every query whose first model response has a stop reason other
than tool-use, `generate_response` returns that response's text content
directly, exactly one model call occurs (the trace is the initial call
alone), and no tool is executed (the tool manager comes back unchanged). -/
theorem c3_direct_answer (r : ModelResponse) (rest : List ModelResponse)
    (q : String) (h : Option String) (tls : Option (List ToolDef))
    (mgrOpt : Option ToolManager) (t : String) (bs : List ContentBlock)
    (hstop : r.stop_reason ≠ "tool_use")
    (hcontent : r.content = ContentBlock.text t :: bs) :
    generate_response (r :: rest) q h tls mgrOpt =
      (some t,
       [(⟨[⟨"user", MessageContent.ofString q⟩], buildSystem h, truthyTools tls,
          (truthyTools tls).isSome⟩ : ApiCall)],
       mgrOpt) := by
  cases mgrOpt with
  | none => simp [generate_response, extractFirstText, hcontent]
  | some mgr => simp [generate_response, hstop, extractFirstText, hcontent]

theorem c3_direct_answer_witness :
    sampleFinalResponse.stop_reason ≠ "tool_use" ∧
    sampleFinalResponse.content = ContentBlock.text "Final answer" :: [] ∧
    generate_response [sampleFinalResponse] "What is 2 + 2?" none
        (some [searchToolDef]) (some sampleMgr) =
      (some "Final answer",
       [(⟨[⟨"user", MessageContent.ofString "What is 2 + 2?"⟩], buildSystem none,
          truthyTools (some [searchToolDef]),
          (truthyTools (some [searchToolDef])).isSome⟩ : ApiCall)],
       some sampleMgr) :=
  ⟨by decide, by decide,
   c3_direct_answer sampleFinalResponse [] "What is 2 + 2?" none (some [searchToolDef])
     (some sampleMgr) "Final answer" [] (by decide) (by decide)⟩

/-- C6: executing an unregistered tool name returns the string
"Tool \x3cname\x3e not found" (in quotes) rather than raising, leaving the
registry unchanged; the orchestrator forwards that string to the model as
tool-result content and still completes the query with the next scripted
answer. -/
theorem c6_unknown_tool :
    (∀ (mgr : ToolManager) (name : String) (input : ToolInput),
      mgr.findTool name = none →
      mgr.execute_tool name input = ("Tool \x27" ++ name ++ "\x27 not found", mgr)) ∧
    (∀ (mgr : ToolManager) (name : String) (input : ToolInput) (id q : String)
      (h : Option String) (ts : List ToolDef) (t : String) (bs : List ContentBlock)
      (rFinal : ModelResponse),
      mgr.findTool name = none → ts ≠ [] →
      rFinal.stop_reason ≠ "tool_use" → rFinal.content = ContentBlock.text t :: bs →
      generate_response
          [⟨"tool_use", [ContentBlock.tool_use id name input]⟩, rFinal]
          q h (some ts) (some mgr) =
        (some t,
         [(⟨[⟨"user", MessageContent.ofString q⟩], buildSystem h, some ts, true⟩ : ApiCall),
          (⟨[⟨"user", MessageContent.ofString q⟩,
             ⟨"assistant", MessageContent.ofBlocks [ContentBlock.tool_use id name input]⟩,
             ⟨"user", MessageContent.ofResults
               [⟨"tool_result", id, "Tool \x27" ++ name ++ "\x27 not found"⟩]⟩],
            buildSystem h, some ts, true⟩ : ApiCall)],
         some mgr)) := by
  constructor
  · intro mgr name input hfind
    simp [ToolManager.execute_tool, hfind]
  · intro mgr name input id q h ts t bs rFinal hfind hts hstop hcontent
    have hts' : ts.isEmpty = false := by
      cases ts with
      | nil => exact absurd rfl hts
      | cons a l => rfl
    simp [generate_response, handle_tool_execution, toolLoop, MAX_TOOL_ROUNDS,
      truthyTools, hts', runToolBlocks, ToolManager.execute_tool, hfind,
      nextCallParams, hstop, extractFirstText, hcontent]

theorem c6_unknown_tool_witness :
    emptyMgr.findTool "nonexistent_tool" = none ∧
    emptyMgr.execute_tool "nonexistent_tool" ⟨"", none, none⟩ =
      ("Tool \x27nonexistent_tool\x27 not found", emptyMgr) :=
  ⟨by rfl, c6_unknown_tool.1 emptyMgr "nonexistent_tool" ⟨"", none, none⟩ (by rfl)⟩

/-- C8: a search execution that returns zero matches with no error yields
the descriptive no-relevant-content message naming the course filter,
appending the lesson segment exactly when a lesson-number filter was given,
and produces no sources. -/
theorem c8_empty_results_message
    (store : String → Option String → Option Int → SearchResults)
    (inp : ToolInput) (dist : List Rat) (c : String)
    (hstore : store inp.query inp.course_name inp.lesson_number = ⟨[], [], dist, [], none⟩)
    (hcourse : inp.course_name = some c) :
    (courseSearchRun store inp).2 = [] ∧
    (inp.lesson_number = none →
      (courseSearchRun store inp).1 =
        "No relevant content found in course \x27" ++ c ++ "\x27") ∧
    (∀ k : Int, inp.lesson_number = some k →
      (courseSearchRun store inp).1 =
        "No relevant content found in course \x27" ++ c ++ "\x27 in lesson " ++ toString k) := by
  have h1 : ∀ x : String,
      "No relevant content found" ++ (" in course \x27" ++ x) =
        "No relevant content found in course \x27" ++ x := by
    intro x
    rw [← String.append_assoc]
    rfl
  have h2 : ∀ x : String, "\x27" ++ (" in lesson " ++ x) = "\x27 in lesson " ++ x := by
    intro x
    rw [← String.append_assoc]
    rfl
  refine ⟨?_, ?_, ?_⟩
  · simp [courseSearchRun, hstore]
  · intro hnone
    rw [hcourse, hnone] at hstore
    simp [courseSearchRun, hstore, emptyMessage, hcourse, hnone,
      String.append_assoc, h1, h2]
  · intro k hk
    rw [hcourse, hk] at hstore
    simp [courseSearchRun, hstore, emptyMessage, hcourse, hk,
      String.append_assoc, h1, h2]

theorem c8_empty_results_message_witness :
    emptyStore "obscure topic" (some "Python 101") none = ⟨[], [], [], [], none⟩ ∧
    (courseSearchRun emptyStore ⟨"obscure topic", some "Python 101", none⟩).2 = [] ∧
    (courseSearchRun emptyStore ⟨"obscure topic", some "Python 101", none⟩).1 =
      "No relevant content found in course \x27Python 101\x27" :=
  ⟨by rfl,
   (c8_empty_results_message emptyStore ⟨"obscure topic", some "Python 101", none⟩ []
     "Python 101" (by rfl) (by rfl)).1,
   (c8_empty_results_message emptyStore ⟨"obscure topic", some "Python 101", none⟩ []
     "Python 101" (by rfl) (by rfl)).2.1 (by rfl)⟩


/-- C5: when the vector store reports an error, the search tool returns the
store\x27s error string verbatim and keeps `last_sources` empty; in an
orchestrated round that literal string becomes the content of the
tool-result entry inside the next model call\x27s message history, and the
query still completes with the next scripted answer (no exception). -/
theorem c5_store_error_forwarded :
    (∀ (store : String → Option String → Option Int → SearchResults) (inp : ToolInput)
      (e : String),
      (store inp.query inp.course_name inp.lesson_number).error = some e →
      courseSearchRun store inp = (e, [])) ∧
    (∀ (store : String → Option String → Option Int → SearchResults) (inp : ToolInput)
      (e id q t : String) (h : Option String) (bs : List ContentBlock)
      (rFinal : ModelResponse) (ts : List ToolDef),
      (store inp.query inp.course_name inp.lesson_number).error = some e →
      ts ≠ [] → rFinal.stop_reason ≠ "tool_use" →
      rFinal.content = ContentBlock.text t :: bs →
      generate_response
          [⟨"tool_use", [ContentBlock.tool_use id "search_course_content" inp]⟩, rFinal]
          q h (some ts) (some ⟨[CourseSearchTool store]⟩) =
        (some t,
         [(⟨[⟨"user", MessageContent.ofString q⟩], buildSystem h, some ts, true⟩ : ApiCall),
          (⟨[⟨"user", MessageContent.ofString q⟩,
             ⟨"assistant", MessageContent.ofBlocks
               [ContentBlock.tool_use id "search_course_content" inp]⟩,
             ⟨"user", MessageContent.ofResults [⟨"tool_result", id, e⟩]⟩],
            buildSystem h, some ts, true⟩ : ApiCall)],
         some ⟨[CourseSearchTool store]⟩)) := by
  constructor
  · intro store inp e herr
    simp [courseSearchRun, herr]
  · intro store inp e id q t h bs rFinal ts herr hts hstop hcontent
    have hrun : courseSearchRun store inp = (e, []) := by
      simp [courseSearchRun, herr]
    have hts' : ts.isEmpty = false := by
      cases ts with
      | nil => exact absurd rfl hts
      | cons a l => rfl
    simp [generate_response, handle_tool_execution, toolLoop, MAX_TOOL_ROUNDS,
      truthyTools, hts', runToolBlocks, ToolManager.execute_tool, ToolManager.findTool,
      CourseSearchTool, Tool.name, searchToolDef, hrun, nextCallParams, hstop,
      extractFirstText, hcontent]

theorem c5_store_error_forwarded_witness :
    (errStore "test query" (some "NonexistentCourse") none).error =
      some "No course found matching \x27NonexistentCourse\x27" ∧
    courseSearchRun errStore ⟨"test query", some "NonexistentCourse", none⟩ =
      ("No course found matching \x27NonexistentCourse\x27", []) :=
  ⟨by rfl,
   c5_store_error_forwarded.1 errStore ⟨"test query", some "NonexistentCourse", none⟩
     "No course found matching \x27NonexistentCourse\x27" (by rfl)⟩

/-- C7: for a non-empty, non-error result list the search tool formats each
match as a header line followed by the snippet text, joins matches with a
blank line, and appends exactly one Source per match in the same order;
the Source for course "X" lesson 3 renders as "X - Lesson 3" and a match
with no lesson number renders as "X". -/
theorem c7_result_formatting
    (store : String → Option String → Option Int → SearchResults) (inp : ToolInput)
    (n : Nat) (d : Fin n → String) (m : Fin n → Metadata) (l : Fin n → Option String)
    (dist : List Rat) (hn : 0 < n)
    (hstore : store inp.query inp.course_name inp.lesson_number =
      ⟨List.ofFn d, List.ofFn m, dist, List.ofFn l, none⟩) :
    courseSearchRun store inp =
      (String.intercalate "\n\n" (List.ofFn fun i => formatHeader (m i) ++ "\n" ++ d i),
       List.ofFn fun i => (⟨sourceTextOf (m i), l i⟩ : Source)) ∧
    (courseSearchRun store inp).2.length = n ∧
    sourceTextOf ⟨"X", some 3⟩ = "X - Lesson 3" ∧
    sourceTextOf ⟨"X", none⟩ = "X" := by
  have hd : (List.ofFn d).isEmpty = false := by
    cases hE : List.ofFn d with
    | nil =>
      exfalso
      have := List.ofFn_eq_nil_iff.mp hE
      omega
    | cons a tl => rfl
  have hmain : courseSearchRun store inp =
      (String.intercalate "\n\n" (List.ofFn fun i => formatHeader (m i) ++ "\n" ++ d i),
       List.ofFn fun i => (⟨sourceTextOf (m i), l i⟩ : Source)) := by
    simp [courseSearchRun, hstore, hd, formatResults, sourcesOf, zip_ofFn,
      List.map_ofFn, Function.comp_def]
  refine ⟨hmain, ?_, by rfl, by rfl⟩
  rw [hmain]
  simp

theorem c7_result_formatting_witness :
    (0 : Nat) < 2 ∧
    (courseSearchRun hitStore ⟨"What is Python?", none, none⟩).2.length = 2 :=
  ⟨by decide,
   (c7_result_formatting hitStore ⟨"What is Python?", none, none⟩ 2
     !["Content about Python basics", "More Python content"]
     ![⟨"Python 101", some 1⟩, ⟨"Python 101", some 2⟩]
     ![some "http://example.com/lesson1", some "http://example.com/lesson2"]
     [1 / 10, 2 / 10] (by decide) (by rfl)).2.1⟩

/-- C9: draining sources is idempotent per query — after `drain_sources`, a
second `drain_sources` with no intervening tool execution returns an empty
sequence — and a facade query on the direct-answer path returns an empty
sources list even when the previous query produced sources. -/
theorem c9_drain_idempotent :
    (∀ mgr : ToolManager, ((mgr.drain_sources).2.drain_sources).1 = []) ∧
    (∀ (mgr : ToolManager) (script1 : List ModelResponse) (q1 q2 : String)
      (h1 h2 : Option String) (r : ModelResponse) (rest : List ModelResponse)
      (t : String) (bs : List ContentBlock),
      r.stop_reason ≠ "tool_use" → r.content = ContentBlock.text t :: bs →
      (ragQuery (r :: rest) (ragQuery script1 mgr q1 h1).2.2.1 q2 h2).2.1 = []) := by
  constructor
  · exact drain_cleared
  · intro mgr script1 q1 q2 h1 h2 r rest t bs hstop hcontent
    simp only [ragQuery, generate_response, hstop]
    simp [Option.getD]
    exact drain_cleared _

theorem c9_drain_idempotent_witness :
    sampleFinalResponse.stop_reason ≠ "tool_use" ∧
    (ragQuery [sampleFinalResponse] (ragQuery [] sampleMgr "q1" none).2.2.1
      "What is 2 + 2?" none).2.1 = [] :=
  ⟨by decide,
   c9_drain_idempotent.2 sampleMgr [] "q1" "What is 2 + 2?" none none
     sampleFinalResponse [] "Final answer" [] (by decide) (by decide)⟩


/-- C4: every tool-use content block of a tool-use response (possibly more
than one) is executed via the registry in the order the model requested —
equivalently, running the blocks equals sequentially executing the
extracted tool-use requests — each execution yielding an entry of shape
type "tool_result" keyed to the matching call id with the returned string
as content, and all results of the round are appended as one combined user
turn of the follow-up call. -/
theorem c4_tool_results_order :
    (∀ (mgr : ToolManager) (bs : List ContentBlock),
      runToolBlocks mgr bs = execSeq mgr (toolUses bs)) ∧
    (∀ (mgr : ToolManager) (bs : List ContentBlock) (r : ToolResult),
      r ∈ (runToolBlocks mgr bs).1 → r.type = "tool_result") ∧
    (∀ (mgr : ToolManager) (q : String) (h : Option String) (ts : List ToolDef)
      (id1 n1 : String) (i1 : ToolInput) (id2 n2 : String) (i2 : ToolInput)
      (rFinal : ModelResponse) (rest : List ModelResponse),
      ts ≠ [] →
      (generate_response
          (⟨"tool_use", [ContentBlock.tool_use id1 n1 i1, ContentBlock.tool_use id2 n2 i2]⟩
            :: rFinal :: rest) q h (some ts) (some mgr)).2.1[1]? =
        some ⟨[⟨"user", MessageContent.ofString q⟩,
               ⟨"assistant", MessageContent.ofBlocks
                 [ContentBlock.tool_use id1 n1 i1, ContentBlock.tool_use id2 n2 i2]⟩,
               ⟨"user", MessageContent.ofResults
                 [⟨"tool_result", id1, (mgr.execute_tool n1 i1).1⟩,
                  ⟨"tool_result", id2, ((mgr.execute_tool n1 i1).2.execute_tool n2 i2).1⟩]⟩],
              buildSystem h, some ts, true⟩) := by
  have hseq : ∀ (bs : List ContentBlock) (mgr : ToolManager),
      runToolBlocks mgr bs = execSeq mgr (toolUses bs) := by
    intro bs
    induction bs with
    | nil => intro mgr; rfl
    | cons b rest ih =>
      intro mgr
      cases b with
      | text t => simpa [runToolBlocks, toolUses] using ih mgr
      | tool_use id name input =>
        simp [runToolBlocks, toolUses, execSeq, ih]
  have htype : ∀ (ps : List (String × String × ToolInput)) (mgr : ToolManager)
      (r : ToolResult), r ∈ (execSeq mgr ps).1 → r.type = "tool_result" := by
    intro ps
    induction ps with
    | nil => intro mgr r hr; simp [execSeq] at hr
    | cons p rest ih =>
      intro mgr r hr
      obtain ⟨id, name, input⟩ := p
      simp only [execSeq, List.mem_cons] at hr
      rcases hr with hr | hr
      · rw [hr]
      · exact ih _ r hr
  refine ⟨fun mgr bs => hseq bs mgr, ?_, ?_⟩
  · intro mgr bs r hr
    exact htype (toolUses bs) mgr r (by rw [← hseq bs mgr]; exact hr)
  · intro mgr q h ts id1 n1 i1 id2 n2 i2 rFinal rest hts
    have hts' : ts.isEmpty = false := by
      cases ts with
      | nil => exact absurd rfl hts
      | cons a l => rfl
    simp [generate_response, handle_tool_execution, toolLoop, MAX_TOOL_ROUNDS,
      truthyTools, hts', runToolBlocks, nextCallParams]

theorem c4_tool_results_order_witness :
    ([searchToolDef] : List ToolDef) ≠ [] ∧
    (generate_response
        (⟨"tool_use", [ContentBlock.tool_use "tool_1" "search_course_content" ⟨"q1", none, none⟩,
           ContentBlock.tool_use "tool_2" "search_course_content" ⟨"q2", none, none⟩]⟩
          :: sampleFinalResponse :: []) "test" none (some [searchToolDef])
        (some sampleMgr)).2.1[1]? =
      some ⟨[⟨"user", MessageContent.ofString "test"⟩,
             ⟨"assistant", MessageContent.ofBlocks
               [ContentBlock.tool_use "tool_1" "search_course_content" ⟨"q1", none, none⟩,
                ContentBlock.tool_use "tool_2" "search_course_content" ⟨"q2", none, none⟩]⟩,
             ⟨"user", MessageContent.ofResults
               [⟨"tool_result", "tool_1",
                 (sampleMgr.execute_tool "search_course_content" ⟨"q1", none, none⟩).1⟩,
                ⟨"tool_result", "tool_2",
                 ((sampleMgr.execute_tool "search_course_content" ⟨"q1", none, none⟩).2.execute_tool
                   "search_course_content" ⟨"q2", none, none⟩).1⟩]⟩],
            buildSystem none, some [searchToolDef], true⟩ :=
  ⟨by decide,
   c4_tool_results_order.2.2 sampleMgr "test" none [searchToolDef]
     "tool_1" "search_course_content" ⟨"q1", none, none⟩
     "tool_2" "search_course_content" ⟨"q2", none, none⟩
     sampleFinalResponse [] (by decide)⟩

/-- C1: the orchestrator makes at most MAX_TOOL_ROUNDS + 1 model calls for
one query, and when the model requests tools in every permitted round the
call count equals exactly MAX_TOOL_ROUNDS + 1 (3 calls) with the final
call\x27s parameters omitting the tool list. -/
theorem c1_call_bound :
    (∀ (script : List ModelResponse) (q : String) (h : Option String)
      (tls : Option (List ToolDef)) (mgrOpt : Option ToolManager),
      (generate_response script q h tls mgrOpt).2.1.length ≤ MAX_TOOL_ROUNDS + 1) ∧
    (∀ (r1 r2 r3 : ModelResponse) (rest : List ModelResponse) (q : String)
      (h : Option String) (ts : List ToolDef) (mgr : ToolManager),
      r1.stop_reason = "tool_use" → r2.stop_reason = "tool_use" → ts ≠ [] →
      (generate_response (r1 :: r2 :: r3 :: rest) q h (some ts) (some mgr)).2.1.length =
        MAX_TOOL_ROUNDS + 1 ∧
      ∃ c, (generate_response (r1 :: r2 :: r3 :: rest) q h (some ts)
              (some mgr)).2.1.getLast? = some c ∧ c.tools = none) := by
  constructor
  · intro script q h tls mgrOpt
    cases script with
    | nil => simp [generate_response, MAX_TOOL_ROUNDS]
    | cons r rest =>
      cases mgrOpt with
      | none => simp [generate_response, MAX_TOOL_ROUNDS]
      | some mgr =>
        by_cases hstop : r.stop_reason = "tool_use"
        · have hb := toolLoop_calls_le MAX_TOOL_ROUNDS (buildSystem h) (truthyTools tls)
            MAX_TOOL_ROUNDS rest mgr [⟨"user", MessageContent.ofString q⟩] r 1
          simp only [generate_response, handle_tool_execution, hstop, if_pos,
            List.length_cons]
          omega
        · simp [generate_response, hstop, MAX_TOOL_ROUNDS]
  · intro r1 r2 r3 rest q h ts mgr h1 h2 hts
    have hts' : ts.isEmpty = false := by
      cases ts with
      | nil => exact absurd rfl hts
      | cons a l => rfl
    by_cases e1 : (runToolBlocks mgr r1.content).1.isEmpty <;>
      by_cases e2 : (runToolBlocks (runToolBlocks mgr r1.content).2 r2.content).1.isEmpty <;>
      simp [generate_response, handle_tool_execution, toolLoop, MAX_TOOL_ROUNDS,
        truthyTools, hts', h1, h2, nextCallParams, e1, e2]

theorem c1_call_bound_witness :
    (⟨"tool_use", []⟩ : ModelResponse).stop_reason = "tool_use" ∧
    ([searchToolDef] : List ToolDef) ≠ [] ∧
    (generate_response [⟨"tool_use", []⟩, ⟨"tool_use", []⟩, sampleFinalResponse]
        "Complex query" none (some [searchToolDef]) (some sampleMgr)).2.1.length =
      MAX_TOOL_ROUNDS + 1 :=
  ⟨by decide, by decide,
   (c1_call_bound.2 ⟨"tool_use", []⟩ ⟨"tool_use", []⟩ sampleFinalResponse []
     "Complex query" none [searchToolDef] sampleMgr (by decide) (by decide) (by decide)).1⟩

/-- C2: the follow-up model call after a round includes the tool list with
automatic tool choice exactly when the current round number is strictly
below the maximum; concretely with MAX_TOOL_ROUNDS = 2, the call issued
after round 1 includes the tools and the call issued after round 2 does
not. -/
theorem c2_tools_iff_round :
    (∀ (sys : String) (ts : List ToolDef) (msgs : List Message) (rn mx : Nat),
      ∃ c, nextCallParams sys (some ts) msgs rn mx = some c ∧
        ((c.tools = some ts ∧ c.tool_choice_auto = true) ↔ rn < mx) ∧
        (c.tools = none ↔ ¬ rn < mx)) ∧
    (∀ (r1 r2 r3 : ModelResponse) (rest : List ModelResponse) (q : String)
      (h : Option String) (ts : List ToolDef) (mgr : ToolManager),
      r1.stop_reason = "tool_use" → r2.stop_reason = "tool_use" → ts ≠ [] →
      ∃ c1 c2,
        (generate_response (r1 :: r2 :: r3 :: rest) q h (some ts) (some mgr)).2.1[1]? =
          some c1 ∧
        (generate_response (r1 :: r2 :: r3 :: rest) q h (some ts) (some mgr)).2.1[2]? =
          some c2 ∧
        c1.tools = some ts ∧ c1.tool_choice_auto = true ∧
        c2.tools = none ∧ c2.tool_choice_auto = false) := by
  constructor
  · intro sys ts msgs rn mx
    by_cases hrm : rn < mx
    · exact ⟨⟨msgs, sys, some ts, true⟩, by simp [nextCallParams, hrm], by simp [hrm]⟩
    · exact ⟨⟨msgs, sys, none, false⟩, by simp [nextCallParams, hrm], by simp [hrm]⟩
  · intro r1 r2 r3 rest q h ts mgr h1 h2 hts
    have hts' : ts.isEmpty = false := by
      cases ts with
      | nil => exact absurd rfl hts
      | cons a l => rfl
    by_cases e1 : (runToolBlocks mgr r1.content).1.isEmpty <;>
      by_cases e2 : (runToolBlocks (runToolBlocks mgr r1.content).2 r2.content).1.isEmpty <;>
      simp [generate_response, handle_tool_execution, toolLoop, MAX_TOOL_ROUNDS,
        truthyTools, hts', h1, h2, nextCallParams, e1, e2]

theorem c2_tools_iff_round_witness :
    (1 < 2 ↔ True) ∧
    ∃ c, nextCallParams SYSTEM_PROMPT (some [searchToolDef]) [] 1 2 = some c ∧
      ((c.tools = some [searchToolDef] ∧ c.tool_choice_auto = true) ↔ 1 < 2) ∧
      (c.tools = none ↔ ¬ 1 < 2) :=
  ⟨by decide, c2_tools_iff_round.1 SYSTEM_PROMPT [searchToolDef] [] 1 2⟩

/-- C10: provided every tool-use round produces at least one tool result,
the message list passed to each model call begins with the original user
query, strictly alternates roles user, assistant, user, ..., ends with a
user turn, and contains exactly 1 + 2k messages after k completed tool
rounds — concretely 3 messages on the first follow-up call and 5 on the
second. -/
theorem c10_message_invariant :
    (∀ (script : List ModelResponse) (q : String) (h : Option String)
      (tls : Option (List ToolDef)) (mgrOpt : Option ToolManager),
      (∀ r ∈ script, r.stop_reason = "tool_use" → hasToolUse r.content = true) →
      ∀ c ∈ (generate_response script q h tls mgrOpt).2.1,
        ∃ j, c.messages.map Message.role = altRoles j ∧
          c.messages.length = 2 * j + 1 ∧
          c.messages.head? = some ⟨"user", MessageContent.ofString q⟩) ∧
    (∀ (r1 r2 r3 : ModelResponse) (rest : List ModelResponse) (q : String)
      (h : Option String) (ts : List ToolDef) (mgr : ToolManager),
      r1.stop_reason = "tool_use" → r2.stop_reason = "tool_use" →
      hasToolUse r1.content = true → hasToolUse r2.content = true → ts ≠ [] →
      ∃ c1 c2,
        (generate_response (r1 :: r2 :: r3 :: rest) q h (some ts) (some mgr)).2.1[1]? =
          some c1 ∧
        (generate_response (r1 :: r2 :: r3 :: rest) q h (some ts) (some mgr)).2.1[2]? =
          some c2 ∧
        c1.messages.length = 3 ∧ c2.messages.length = 5) := by
  constructor
  · intro script q h tls mgrOpt hall c hc
    have hfirst : ∀ sys tI b, c = (⟨[⟨"user", MessageContent.ofString q⟩], sys, tI, b⟩ : ApiCall) →
        ∃ j, c.messages.map Message.role = altRoles j ∧
          c.messages.length = 2 * j + 1 ∧
          c.messages.head? = some ⟨"user", MessageContent.ofString q⟩ := by
      intro sys tI b hcev
      exact ⟨0, by rw [hcev]; rfl, by rw [hcev]; rfl, by rw [hcev]; rfl⟩
    cases script with
    | nil =>
      simp only [generate_response, List.mem_singleton] at hc
      exact hfirst _ _ _ hc
    | cons r rest =>
      cases mgrOpt with
      | none =>
        simp only [generate_response, List.mem_singleton] at hc
        exact hfirst _ _ _ hc
      | some mgr =>
        by_cases hstop : r.stop_reason = "tool_use"
        · simp only [generate_response, handle_tool_execution, hstop, if_pos,
            List.mem_cons] at hc
          rcases hc with hc | hc
          · exact hfirst _ _ _ hc
          · have hinv := toolLoop_invariant MAX_TOOL_ROUNDS (buildSystem h)
              (truthyTools tls) q MAX_TOOL_ROUNDS rest mgr
              [⟨"user", MessageContent.ofString q⟩] r 1 0 hall (by rfl) (by rfl) c hc
            obtain ⟨j, hj1, hj2⟩ := hinv
            refine ⟨j, hj1, ?_, hj2⟩
            have := congrArg List.length hj1
            rwa [List.length_map, altRoles_length] at this
        · simp only [generate_response, hstop, if_neg, ite_false,
            List.mem_singleton] at hc
          exact hfirst _ _ _ hc
  · intro r1 r2 r3 rest q h ts mgr h1 h2 htu1 htu2 hts
    have hts' : ts.isEmpty = false := by
      cases ts with
      | nil => exact absurd rfl hts
      | cons a l => rfl
    have e1 : (runToolBlocks mgr r1.content).1.isEmpty = false :=
      runToolBlocks_isEmpty_false _ _ htu1
    have e2 : (runToolBlocks (runToolBlocks mgr r1.content).2 r2.content).1.isEmpty = false :=
      runToolBlocks_isEmpty_false _ _ htu2
    simp [generate_response, handle_tool_execution, toolLoop, MAX_TOOL_ROUNDS,
      truthyTools, hts', h1, h2, nextCallParams, e1, e2]

theorem c10_message_invariant_witness :
    hasToolUse sampleToolUseResponse.content = true ∧
    ([searchToolDef] : List ToolDef) ≠ [] ∧
    ∃ c1 c2,
      (generate_response [sampleToolUseResponse, sampleToolUseResponse, sampleFinalResponse]
        "Compare lesson 1 and lesson 5" none (some [searchToolDef]) (some sampleMgr)).2.1[1]? =
        some c1 ∧
      (generate_response [sampleToolUseResponse, sampleToolUseResponse, sampleFinalResponse]
        "Compare lesson 1 and lesson 5" none (some [searchToolDef]) (some sampleMgr)).2.1[2]? =
        some c2 ∧
      c1.messages.length = 3 ∧ c2.messages.length = 5 :=
  ⟨by decide, by decide,
   c10_message_invariant.2 sampleToolUseResponse sampleToolUseResponse sampleFinalResponse []
     "Compare lesson 1 and lesson 5" none [searchToolDef] sampleMgr
     (by decide) (by decide) (by decide) (by decide) (by decide)⟩

end Rag





